import Mathlib

/-!
# Verification of the Nearby-StaysFinder core (`src/app.py`)

Shallow embedding of the reusable core of `app.py`:

* `generate_stays_prompt` (lines 63-78) — the PromptBuilder;
* `get_gemini_response`   (lines 80-95) — the CompletionClient wrapper;
* `parse_stays_response`  (lines 97-107) — the ResponseParser;
* `display_stays`         (lines 109-137) — the renderer's exception behaviour;
* `main`'s search action  (lines 141-171) — the top-level control flow.

Python strings are modelled as `String` / `List Char`; the stdlib pieces the
code calls (`str.replace` with the two constant patterns, `str.strip`,
`json.loads`, `int(...)`, dict`.get`, truthiness) are modelled explicitly
below, each next to the definition that uses it.  JSON numbers are modelled
exactly as rationals (the decimal literals appearing in the claims are exact
in binary floating point as well, so no rounding behaviour is lost for the
inputs considered here); CPython's non-standard `NaN/Infinity` extensions
and its recursion limit are outside the model.
-/
/-- JSON values as produced by `json.loads`.  Objects are insertion-ordered
key/value lists; a repeated key keeps the first position and the last value,
like a CPython `dict`. -/
inductive JValue where
  | null
  | bool (b : Bool)
  | num (q : ℚ)
  | str (s : String)
  | arr (elems : List JValue)
  | obj (fields : List (String × JValue))

/-- `str.replace("```json", "")` from app.py line 103, specialised to its
constant pattern: the leftmost-first, non-overlapping global replacement
CPython performs, with an empty replacement string. -/
def stripFence7 : List Char → List Char
  | [] => []
  | '`' :: '`' :: '`' :: 'j' :: 's' :: 'o' :: 'n' :: rest => stripFence7 rest
  | c :: rest => c :: stripFence7 rest

/-- `str.replace("```", "")` from app.py line 103, specialised to its
constant pattern. -/
def stripTicks3 : List Char → List Char
  | [] => []
  | '`' :: '`' :: '`' :: rest => stripTicks3 rest
  | c :: rest => c :: stripTicks3 rest

/-- ASCII whitespace recognised by `str.strip()` (the Unicode-only space
characters never arise in this development). -/
def isPySpace (c : Char) : Bool :=
  c = ' ' || c = '\t' || c = '\n' || c = '\r' || c = '\x0b' || c = '\x0c'

/-- `str.strip()` from app.py line 103: drop leading and trailing
whitespace. -/
def pyStrip (s : List Char) : List Char :=
  ((s.dropWhile isPySpace).reverse.dropWhile isPySpace).reverse

/-- `clean_text` as computed on app.py line 103:
`response_text.replace("```json", "").replace("```", "").strip()`. -/
def clean_text (s : List Char) : List Char :=
  pyStrip (stripTicks3 (stripFence7 s))

/-- The seven characters of the literal `"```json"`. -/
def fence7 : List Char := ['`', '`', '`', 'j', 's', 'o', 'n']

/-- The three characters of the literal `"```"`. -/
def fence3 : List Char := ['`', '`', '`']

/-! ## Model of `json.loads` (app.py line 104)

A strict RFC 8259 decoder matching `json.scanner` / `json.decoder`:
leftmost scan, JSON whitespace `space/tab/LF/CR`, strings with the standard
escapes (strict mode: raw control characters rejected), numbers per the
JSON grammar, and an "Extra data" failure when anything but whitespace
follows the top-level value.  Failure (CPython's `json.JSONDecodeError`)
is `none`. -/
/-- JSON insignificant whitespace. -/
def jsonWs (c : Char) : Bool := c = ' ' || c = '\t' || c = '\n' || c = '\r'

/-- Skip insignificant whitespace. -/
def skipWs (s : List Char) : List Char := s.dropWhile jsonWs

/-- Hexadecimal digit value for `\uXXXX` escapes. -/
def hexVal (c : Char) : Option Nat :=
  if '0' ≤ c ∧ c ≤ '9' then some (c.toNat - '0'.toNat)
  else if 'a' ≤ c ∧ c ≤ 'f' then some (c.toNat - 'a'.toNat + 10)
  else if 'A' ≤ c ∧ c ≤ 'F' then some (c.toNat - 'A'.toNat + 10)
  else none

/-- Value of a four-digit hex escape. -/
def hex4 (a b c d : Char) : Option Nat := do
  let va ← hexVal a
  let vb ← hexVal b
  let vc ← hexVal c
  let vd ← hexVal d
  pure (((va * 16 + vb) * 16 + vc) * 16 + vd)

/-- Decode the body of a JSON string, the opening quote already consumed;
returns the content and the input after the closing quote.  Each `\uXXXX`
escape yields one character through `Char.ofNat` (surrogate-pair
recombination, which only matters for astral-plane escapes, is outside the
model; no input considered in this development contains a `\u` escape). -/
def parseStringRest : List Char → Option (List Char × List Char)
  | [] => none
  | '"' :: rest => some ([], rest)
  | '\\' :: esc =>
    match esc with
    | '"' :: r => (parseStringRest r).map fun p => ('"' :: p.1, p.2)
    | '\\' :: r => (parseStringRest r).map fun p => ('\\' :: p.1, p.2)
    | '/' :: r => (parseStringRest r).map fun p => ('/' :: p.1, p.2)
    | 'b' :: r => (parseStringRest r).map fun p => ('\x08' :: p.1, p.2)
    | 'f' :: r => (parseStringRest r).map fun p => ('\x0c' :: p.1, p.2)
    | 'n' :: r => (parseStringRest r).map fun p => ('\n' :: p.1, p.2)
    | 'r' :: r => (parseStringRest r).map fun p => ('\r' :: p.1, p.2)
    | 't' :: r => (parseStringRest r).map fun p => ('\t' :: p.1, p.2)
    | 'u' :: h1 :: h2 :: h3 :: h4 :: r =>
      match hex4 h1 h2 h3 h4 with
      | none => none
      | some n => (parseStringRest r).map fun p => (Char.ofNat n :: p.1, p.2)
    | _ => none
  | c :: rest =>
    if c.toNat < 0x20 then none
    else (parseStringRest rest).map fun p => (c :: p.1, p.2)

/-- Longest leading run of decimal digits, and the rest. -/
def spanDigits : List Char → (List Char × List Char)
  | [] => ([], [])
  | c :: rest =>
    if c.isDigit then
      let p := spanDigits rest
      (c :: p.1, p.2)
    else ([], c :: rest)

/-- Numeric value of a digit run. -/
def digitsVal (ds : List Char) : Nat :=
  ds.foldl (fun acc c => acc * 10 + (c.toNat - '0'.toNat)) 0

/-- Decode a JSON number starting at the head of the input, per the JSON
grammar `-?(0|[1-9][0-9]*)(\.[0-9]+)?([eE][-+]?[0-9]+)?` used by
`json.scanner`; like the CPython regex it consumes the longest valid
number and leaves anything after it (so `"01"` decodes `0` and leaves
`"1"` for the caller to reject as extra data). -/
def parseNumber (s : List Char) : Option (ℚ × List Char) :=
  let (neg, s1) : Bool × List Char :=
    match s with
    | '-' :: r => (true, r)
    | _ => (false, s)
  match spanDigits s1 with
  | ([], _) => none
  | (d :: ds, r1) =>
    -- a leading zero may not be followed by further digits
    if d = '0' ∧ ds ≠ [] then none
    else
      let ip : Nat := digitsVal (d :: ds)
      -- fraction part: `.` followed by at least one digit, else not consumed
      let (fracDigits, r2) : List Char × List Char :=
        match r1 with
        | '.' :: r =>
          match spanDigits r with
          | ([], _) => ([], r1)
          | (fs, rf) => (fs, rf)
        | _ => ([], r1)
      -- exponent part: `e`/`E`, optional sign, at least one digit
      let (expNeg, expDigits, r3) : Bool × List Char × List Char :=
        match r2 with
        | 'e' :: '-' :: r =>
          match spanDigits r with
          | ([], _) => (false, [], r2)
          | (es, re) => (true, es, re)
        | 'e' :: '+' :: r =>
          match spanDigits r with
          | ([], _) => (false, [], r2)
          | (es, re) => (false, es, re)
        | 'e' :: r =>
          match spanDigits r with
          | ([], _) => (false, [], r2)
          | (es, re) => (false, es, re)
        | 'E' :: '-' :: r =>
          match spanDigits r with
          | ([], _) => (false, [], r2)
          | (es, re) => (true, es, re)
        | 'E' :: '+' :: r =>
          match spanDigits r with
          | ([], _) => (false, [], r2)
          | (es, re) => (false, es, re)
        | 'E' :: r =>
          match spanDigits r with
          | ([], _) => (false, [], r2)
          | (es, re) => (false, es, re)
        | _ => (false, [], r2)
      let mantissa : Nat := ip * 10 ^ fracDigits.length + digitsVal fracDigits
      let signed : Int := if neg then -(mantissa : Int) else (mantissa : Int)
      let value : ℚ :=
        if expNeg then mkRat signed (10 ^ fracDigits.length * 10 ^ digitsVal expDigits)
        else mkRat (signed * 10 ^ digitsVal expDigits) (10 ^ fracDigits.length)
      some (value, r3)

/-- CPython `dict` insertion: a repeated key keeps its original position
and takes the new value. -/
def setKey : List (String × JValue) → String → JValue → List (String × JValue)
  | [], k, v => [(k, v)]
  | (k0, v0) :: rest, k, v =>
    if k0 = k then (k0, v) :: rest else (k0, v0) :: setKey rest k v

mutual

/-- Decode one JSON value (leading whitespace allowed), returning it and
the unconsumed input.  The fuel argument only bounds the recursion depth;
`jsonLoads` supplies more than any input can use. -/
def parseJValue : Nat → List Char → Option (JValue × List Char)
  | 0, _ => none
  | fuel + 1, s =>
    match skipWs s with
    | 't' :: 'r' :: 'u' :: 'e' :: r => some (.bool true, r)
    | 'f' :: 'a' :: 'l' :: 's' :: 'e' :: r => some (.bool false, r)
    | 'n' :: 'u' :: 'l' :: 'l' :: r => some (.null, r)
    | '"' :: r => (parseStringRest r).map fun p => (.str ⟨p.1⟩, p.2)
    | '[' :: r =>
      match skipWs r with
      | ']' :: r2 => some (.arr [], r2)
      | _ => (parseArrItems fuel r).map fun p => (.arr p.1, p.2)
    | '{' :: r =>
      match skipWs r with
      | '}' :: r2 => some (.obj [], r2)
      | _ =>
        (parseObjItems fuel r).map fun p =>
          (.obj (p.1.foldl (fun d kv => setKey d kv.1 kv.2) []), p.2)
    | c :: r =>
      if c = '-' ∨ c.isDigit then
        (parseNumber (c :: r)).map fun p => (.num p.1, p.2)
      else none
    | [] => none

/-- Decode the comma-separated items of a non-empty JSON array, up to and
including the closing bracket. -/
def parseArrItems : Nat → List Char → Option (List JValue × List Char)
  | 0, _ => none
  | fuel + 1, s =>
    match parseJValue fuel s with
    | none => none
    | some (v, r) =>
      match skipWs r with
      | ',' :: r2 => (parseArrItems fuel r2).map fun p => (v :: p.1, p.2)
      | ']' :: r2 => some ([v], r2)
      | _ => none

/-- Decode the members of a non-empty JSON object, up to and including the
closing brace, in source order. -/
def parseObjItems : Nat → List Char → Option (List (String × JValue) × List Char)
  | 0, _ => none
  | fuel + 1, s =>
    match skipWs s with
    | '"' :: r =>
      match parseStringRest r with
      | none => none
      | some (kcs, r1) =>
        match skipWs r1 with
        | ':' :: r2 =>
          match parseJValue fuel r2 with
          | none => none
          | some (v, r3) =>
            match skipWs r3 with
            | ',' :: r4 => (parseObjItems fuel r4).map fun p => ((⟨kcs⟩, v) :: p.1, p.2)
            | '}' :: r4 => some ([(⟨kcs⟩, v)], r4)
            | _ => none
        | _ => none
    | _ => none

end

/-- `json.loads` on an already-cleaned character list: decode one value and
fail on trailing non-whitespace ("Extra data"). -/
def jsonLoads (s : List Char) : Option JValue :=
  match parseJValue (2 * s.length + 2) s with
  | some (v, r) => if skipWs r = [] then some v else none
  | none => none

/-- Python's substring containment test (`pat in s`), used to state the
claims about code-fence markers. -/
def containsSub (pat : List Char) : List Char → Bool
  | [] => pat.isPrefixOf []
  | c :: rest => pat.isPrefixOf (c :: rest) || containsSub pat rest

/-! ## `parse_stays_response` (app.py lines 97-107) -/
/-- What a call to `parse_stays_response` leaves behind: the returned value
(`return json.loads(clean_text)` on success, `return []` on the
`json.JSONDecodeError` handler, line 107) and whether the handler's
`st.error("Failed to parse AI response. ...")` message (line 106) was
displayed.  The returned value is a `JValue` because the function returns
whatever `json.loads` produced, its `List[Dict]` annotation
notwithstanding. -/
structure ParseOutcome where
  result : JValue
  errorShown : Bool

/-- `parse_stays_response` (app.py lines 97-107). -/
def parse_stays_response (response_text : String) : ParseOutcome :=
  match jsonLoads (clean_text response_text.data) with
  | some v => ⟨v, false⟩
  | none => ⟨JValue.arr [], true⟩

/-- Elements of a decoded top-level array (empty for non-arrays). -/
def jElems : JValue → List JValue
  | .arr xs => xs
  | _ => []

/-- Keys of a decoded record (empty for non-objects). -/
def jKeys : JValue → List String
  | .obj kvs => kvs.map Prod.fst
  | _ => []

/-! ## Behaviour of the two global replacements

Lemmas describing how `stripFence7` and `stripTicks3` act on appended
inputs, used to settle the fence-handling claims. -/
/-- Trailing characters of the long pattern after its three backticks. -/
def jsonTag : List Char := ['j', 's', 'o', 'n']

/-! ## `generate_stays_prompt` (app.py lines 63-78)

The f-string of lines 65-78, split at its three interpolation points.
Whitespace (including the four-space indents of the triple-quoted literal
and the trailing spaces on its blank lines) reproduces the source
exactly. -/
/-- Literal text before the `{max_results}` interpolation. -/
def promptPart1 : String := "\n    Act as a travel specialist. Find "

/-- Literal text between `{max_results}` and `{location}`. -/
def promptPart2 : String := " accommodation options around \""

/-- Literal text between `{location}` and `{radius}`. -/
def promptPart3 : String := "\" within "

/-- Literal text after `{radius}`, through the end of the f-string. -/
def promptPart4 : String := " km.\n    \n    Strictly return a JSON array of objects. Do not include markdown formatting like ```json ... ```.\n    \n    Each object must have:\n    - \"name\": string\n    - \"type\": string (e.g. Hotel, Hostel, Resort)\n    - \"distance_km\": number (estimated)\n    - \"price_range\": string (e.g. \"$\", \"$$\", \"$$$\")\n    - \"rating\": number (0-5)\n    - \"amenities\": list of strings (max 5 items)\n    - \"description\": string (short marketing blurb)\n    "

/-- `generate_stays_prompt` (app.py lines 63-78): the f-string with
`max_results`, `location` and `radius` interpolated in source order. -/
def generate_stays_prompt (location : String) (radius : Nat) (max_results : Nat) : String :=
  promptPart1 ++ toString max_results ++ promptPart2 ++ location ++
    promptPart3 ++ toString radius ++ promptPart4

/-! ## Model of the search action
(`configure_gemini` lines 50-61, `get_gemini_response` lines 80-95,
`display_stays` lines 109-137, `main` lines 141-171) -/
/-- Python truthiness of a decoded JSON value (`if stays_data:` line 168,
`if amenities:` line 129). -/
def truthyJ : JValue → Bool
  | .null => false
  | .bool b => b
  | .num q => !(q.num == 0)
  | .str s => !(s == "")
  | .arr xs => !xs.isEmpty
  | .obj kvs => !kvs.isEmpty

/-- `dict.get(key, default)` as used on app.py lines 118-134. -/
def jGet (fields : List (String × JValue)) (k : String) (dflt : JValue) : JValue :=
  match fields.find? (fun kv => kv.1 == k) with
  | some kv => kv.2
  | none => dflt

/-- CPython `int(str)`: optional surrounding whitespace, optional sign,
one or more ASCII digits (underscore digit grouping and non-ASCII digits
are outside the model); anything else raises `ValueError` (`none`). -/
def pyIntOfString (s : String) : Option Int :=
  match pyStrip s.data with
  | [] => none
  | c :: rest =>
    let digits : List Char := if c = '-' ∨ c = '+' then rest else c :: rest
    let negate : Bool := c = '-'
    if digits ≠ [] ∧ digits.all Char.isDigit then
      some (if negate then -(digitsVal digits : Int) else (digitsVal digits : Int))
    else none

/-- CPython `int(x)` on a decoded JSON value (app.py line 123): numbers
truncate toward zero, bools give 0/1, numeric strings parse; anything
else raises `TypeError`/`ValueError` (`none`). -/
def pyIntOfJValue : JValue → Option Int
  | .num q => some (q.num.tdiv (q.den : Int))
  | .bool b => some (if b then 1 else 0)
  | .str s => pyIntOfString s
  | _ => none

/-- Py_ssize_t maximum of 64-bit CPython: the largest repeat count the
string repetition `'⭐' * n` on line 123 accepts; beyond it CPython
raises `OverflowError`.  (A count within this bound but too large to
allocate raises `MemoryError`, a resource limit outside the model, like
the recursion limit.) -/
def pySsizeMax : Int := 9223372036854775807

/-- Values `st.metric` accepts for its `value` argument: Streamlit raises
`StreamlitAPIException` unless the value is an int, float, str or None —
for a decoded JSON value a number, string, bool (a Python int subclass)
or null.  Lists and dicts are rejected. -/
def metricSafe : JValue → Bool
  | .num _ => true
  | .str _ => true
  | .bool _ => true
  | .null => true
  | _ => false

/-- `st.metric("Price", stay.get('price_range', 'N/A'))` (app.py line
134), the last raising operation of a loop iteration. -/
def render_metric (fields : List (String × JValue)) : Except String Unit :=
  if metricSafe (jGet fields "price_range" (.str "N/A")) then .ok ()
  else .error "StreamlitAPIException: metric value"

/-- One iteration of the rendering loop (app.py lines 113-134) on one
decoded element: `ok` when every operation succeeds, otherwise the first
uncaught Python exception, in source order: `.get` on a non-dict element
(AttributeError, line 118); `int(rating)` on a value `int()` rejects
(ValueError/TypeError, line 123); `'⭐' * int(rating)` on a repeat count
beyond `Py_ssize_t` (OverflowError, line 123); `" • ".join(amenities)`
on a truthy amenities value that is not an iterable of strings
(TypeError, line 130; a string iterates its characters and a dict its
string keys, so those succeed); and `st.metric` on a non-scalar
price_range (StreamlitAPIException, line 134).
`st.subheader`/`st.caption`/`st.write` stringify their argument and do
not raise. -/
def render_stay (stay : JValue) : Except String Unit :=
  match stay with
  | .obj fields =>
    match pyIntOfJValue (jGet fields "rating" (.num 0)) with
    | none => .error "int() on non-numeric rating"
    | some k =>
      if pySsizeMax < k then .error "OverflowError: repeat count too large"
      else
        -- `amenities = stay.get('amenities', [])` (line 128), written out
        -- at each of its two uses (lines 129-130)
        if truthyJ (jGet fields "amenities" (.arr [])) then
          match jGet fields "amenities" (.arr []) with
          | .arr xs =>
            if xs.all (fun a => match a with | .str _ => true | _ => false) then
              render_metric fields
            else .error "join() on non-string amenity"
          | .str _ => render_metric fields
          | .obj _ => render_metric fields
          | _ => .error "join() on non-iterable amenities"
        else render_metric fields
  | _ => .error "AttributeError: element has no attribute get"

/-- The rendering loop: elements in order, stopping at the first
exception. -/
def render_all : List JValue → Except String Unit
  | [] => .ok ()
  | stay :: rest =>
    match render_stay stay with
    | .ok _ => render_all rest
    | .error m => .error m

/-- `display_stays` (app.py lines 109-137) applied to whatever
`parse_stays_response` returned: `len(stays)` (line 111) raises TypeError
unless the value is sized (list, string or dict); `for i, stay in
enumerate(stays)` then iterates list elements, string characters, or dict
keys — the latter two being strings, their `.get` raises immediately. -/
def display_stays (stays : JValue) : Except String Unit :=
  match stays with
  | .arr xs => render_all xs
  | .str s => if s == "" then .ok () else .error "AttributeError: element has no attribute get"
  | .obj kvs =>
    match kvs with
    | [] => .ok ()
    | _ => .error "AttributeError: element has no attribute get"
  | _ => .error "TypeError: object has no len()"

/-- `get_gemini_response` (app.py lines 80-95): a single backend call in a
try/except.  The backend outcome is the model's parameter: `.ok text` is a
successful `generate_content` call, `.error e` any raised exception.  The
handler catches everything, shows `st.error(f"API Error: {e}")` and
returns `None`. -/
def get_gemini_response (backend : Except String String) : Option String :=
  match backend with
  | .ok t => some t
  | .error _ => none

/-- Truthiness of the `GEMINI_API_KEY` value (`None` when the variable is
missing), as tested by `if not GEMINI_API_KEY` on lines 52 and 154. -/
def pyTruthyKey : Option String → Bool
  | none => false
  | some s => !(s == "")

/-- `configure_gemini` (app.py lines 50-61): `None` when the key is falsy
or when `genai.configure`/model construction raises (the `configureOk`
parameter), otherwise the model object. -/
def configure_gemini (apiKey : Option String) (configureOk : Bool) : Option Unit :=
  if !(pyTruthyKey apiKey) then none
  else if configureOk then some () else none

/-- Observable steps of one search action (`main`, app.py lines 153-171). -/
inductive StepEvent where
  | shownKeyMissingError
  | shownConfigError
  | calledBackend
  | shownApiError
  | shownParseError
  | renderedResults
  | shownNoDataWarning
  | raisedUncaught (msg : String)
deriving DecidableEq

/-- The search action of `main` (app.py lines 153-171) for a click with a
non-empty location: the observable steps, as a function of the configured
key, whether client construction succeeds, and the backend outcome.
`raisedUncaught` records an exception escaping the search action. -/
def main_search (apiKey : Option String) (configureOk : Bool)
    (backend : Except String String) (location : String)
    (radius max_results : Nat) : List StepEvent :=
  if !(pyTruthyKey apiKey) then [.shownKeyMissingError]
  else
    match configure_gemini apiKey configureOk with
    | none => [.shownConfigError]
    | some _ =>
      let _prompt := generate_stays_prompt location radius max_results
      match get_gemini_response backend with
      | none => [.calledBackend, .shownApiError]
      | some raw =>
        if raw == "" then [.calledBackend]
        else
          -- `stays_data = parse_stays_response(raw_response)` (line 167),
          -- written out at each use; the parse-error message, if any, is
          -- shown during the call, before rendering
          StepEvent.calledBackend ::
            ((if (parse_stays_response raw).errorShown
              then [StepEvent.shownParseError] else []) ++
             (if truthyJ (parse_stays_response raw).result then
                match display_stays (parse_stays_response raw).result with
                | .ok _ => [StepEvent.renderedResults]
                | .error m => [StepEvent.raisedUncaught m]
              else [StepEvent.shownNoDataWarning]))

example : fence7 = "```json".data := rfl

example : fence3 = "```".data := rfl

example : clean_text "```json\n[1]\n```".data = "[1]".data := rfl

example : clean_text "[\"a```b\"]".data = "[\"ab\"]".data := rfl

example : jsonLoads "[]".data = some (.arr []) := rfl

example : jsonLoads " [ 1 , true , null ] ".data =
    some (.arr [.num (mkRat 1 1), .bool true, .null]) := rfl

example : jsonLoads "".data = none := rfl

example : jsonLoads "not json".data = none := rfl

example : jsonLoads "\x7bnot an array\x7d".data = none := rfl

example : jsonLoads "\x7b\x7d".data = some (.obj []) := rfl

example : jsonLoads "\x7b\"a\": 1\x7d".data = some (.obj [("a", .num (mkRat 1 1))]) := rfl

example : jsonLoads "[\x7b\"name\":\"Inn A\",\"rating\":4.5\x7d]".data =
    some (.arr [.obj [("name", .str "Inn A"), ("rating", .num (mkRat 9 2))]]) := rfl

example : jsonLoads "[1]garbage".data = none := rfl

example : jsonLoads "1e2".data = some (.num (mkRat 100 1)) := rfl

example : jsonLoads "-2.5e-1".data = some (.num (mkRat (-1) 4)) := rfl

example : jsonLoads "01".data = none := rfl

example : jsonLoads "\"a\\u0041\\n\"".data = some (.str "aA\n") := rfl

example : containsSub fence3 "a```b".data = true := rfl

example : containsSub fence3 "ab".data = false := rfl

/-- C3. `parse_stays_response` applied to `""`, `"not json"` and
`"{not an array}"` takes the `json.JSONDecodeError` handler in each case:
the parse-failure message is displayed (`errorShown`), so the outcome is
distinguishable as a parse failure rather than a plain successful
collection.  (The *returned value* is nonetheless the empty list — that
separate observation is claim C10.) -/
theorem parse_stays_response_malformed_inputs_signal_error :
    (parse_stays_response "").errorShown = true ∧
    (parse_stays_response "not json").errorShown = true ∧
    (parse_stays_response "\x7bnot an array\x7d").errorShown = true :=
  ⟨rfl, rfl, rfl⟩

/-- C8. `parse_stays_response "[]"` returns the empty collection as a
successful result: no error message is shown. -/
theorem parse_stays_response_empty_array :
    parse_stays_response "[]" = ⟨JValue.arr [], false⟩ := rfl

/-- C9. `parse_stays_response '[{"name":"Inn A","rating":4.5}]'` returns a
one-element collection whose record has name `"Inn A"` and rating `4.5`
(the rational 9/2), and none of the unspecified StayRecord fields (`type`,
`distance_km`, `price_range`, `amenities`, `description`) is present in
the returned record: the parser synthesizes no defaults. -/
theorem parse_stays_response_inn_a :
    parse_stays_response "[\x7b\"name\":\"Inn A\",\"rating\":4.5\x7d]" =
      ⟨JValue.arr [JValue.obj [("name", JValue.str "Inn A"),
                               ("rating", JValue.num (mkRat 9 2))]], false⟩ ∧
    ((jElems (parse_stays_response "[\x7b\"name\":\"Inn A\",\"rating\":4.5\x7d]").result).map jKeys
      = [["name", "rating"]]) ∧
    (["type", "distance_km", "price_range", "amenities", "description"].all
      fun k => !((jElems (parse_stays_response "[\x7b\"name\":\"Inn A\",\"rating\":4.5\x7d]").result).any
        fun stay => (jKeys stay).contains k)) = true :=
  ⟨rfl, rfl, rfl⟩

/-- C2 (counterexample). An input whose top-level decoded JSON value is an
object — not an array — is returned as a successful result with no error
signalled, contradicting the claim that a non-array top level signals
`ParseError` and is never returned. -/
theorem parse_stays_response_accepts_non_array :
    parse_stays_response "\x7b\"a\": 1\x7d" =
      ⟨JValue.obj [("a", JValue.num (mkRat 1 1))], false⟩ := rfl

/-- C2 (amended). `parse_stays_response` performs no validation of the
decoded value: whenever `json.loads` succeeds on the cleaned text, the
decoded top-level value is returned as-is (array or not, records objects
or not) with no error; only a decode failure takes the error path, which
shows the parse-error message and returns the empty list.  A non-array
top level (for example the number `5`) is returned as a successful
result. -/
theorem parse_stays_response_unvalidated_decode (s : String) :
    (∀ v, jsonLoads (clean_text s.data) = some v → parse_stays_response s = ⟨v, false⟩) ∧
    (jsonLoads (clean_text s.data) = none → parse_stays_response s = ⟨JValue.arr [], true⟩) ∧
    parse_stays_response "5" = ⟨JValue.num (mkRat 5 1), false⟩ := by
  refine ⟨fun v h => ?_, fun h => ?_, rfl⟩
  · unfold parse_stays_response
    rw [h]
  · unfold parse_stays_response
    rw [h]

/-- Witness for C2 (amended): at the concrete non-array input
`"{\"a\": 1}"` the decode succeeds and the object is returned unvalidated. -/
theorem parse_stays_response_unvalidated_decode_witness :
    parse_stays_response "\x7b\"a\": 1\x7d" =
      ⟨JValue.obj [("a", JValue.num (mkRat 1 1))], false⟩ :=
  (parse_stays_response_unvalidated_decode "\x7b\"a\": 1\x7d").1
    (JValue.obj [("a", JValue.num (mkRat 1 1))]) rfl

/-- C10. For every input on which JSON decoding fails after fence
stripping and trimming, `parse_stays_response` returns the empty list —
the identical value it returns for the input `"[]"` — so by the return
value alone a caller cannot distinguish a malformed response from a
legitimately empty result. -/
theorem decode_failure_returns_empty_list (s : String)
    (h : jsonLoads (clean_text s.data) = none) :
    (parse_stays_response s).result = JValue.arr [] ∧
    (parse_stays_response s).result = (parse_stays_response "[]").result := by
  unfold parse_stays_response
  rw [h]
  exact ⟨rfl, rfl⟩

/-- Witness for C10 at the undecodable input `"not json"`. -/
theorem decode_failure_returns_empty_list_witness :
    (parse_stays_response "not json").result = JValue.arr [] ∧
    (parse_stays_response "not json").result = (parse_stays_response "[]").result :=
  decode_failure_returns_empty_list "not json" rfl

theorem fence7_eq_fence3_append : fence7 = fence3 ++ jsonTag := rfl

theorem stripTicks3_after_fence (s : List Char) :
    stripTicks3 (fence3 ++ s) = stripTicks3 s := rfl

theorem stripFence7_after_fence (s : List Char) :
    stripFence7 (fence7 ++ s) = stripFence7 s := rfl

theorem stripTicks3_cons_skip (c : Char) (rest : List Char)
    (h : ¬ fence3.isPrefixOf (c :: rest) = true) :
    stripTicks3 (c :: rest) = c :: stripTicks3 rest := by
  rw [stripTicks3.eq_def]
  split
  · simp_all
  · rename_i rest2 heq
    rw [heq] at h
    simp [fence3, List.isPrefixOf] at h
  · rename_i c2 rest2 hno heq
    injection heq with h1 h2
    subst h1
    subst h2
    rfl

theorem stripFence7_cons_skip (c : Char) (rest : List Char)
    (h : ¬ fence7.isPrefixOf (c :: rest) = true) :
    stripFence7 (c :: rest) = c :: stripFence7 rest := by
  rw [stripFence7.eq_def]
  split
  · simp_all
  · rename_i rest2 heq
    rw [heq] at h
    simp [fence7, List.isPrefixOf] at h
  · rename_i c2 rest2 hno heq
    injection heq with h1 h2
    subst h1
    subst h2
    rfl

theorem fence3_prefix_head {c : Char} {L : List Char}
    (h : fence3.isPrefixOf (c :: L) = true) : c = '`' := by
  simp [fence3, List.isPrefixOf] at h
  exact h.1.symm

theorem fence7_prefix_head {c : Char} {L : List Char}
    (h : fence7.isPrefixOf (c :: L) = true) : c = '`' := by
  simp [fence7, List.isPrefixOf] at h
  exact h.1.symm

theorem fence3_prefix_second {x : Char} {L : List Char}
    (h : fence3.isPrefixOf ('`' :: x :: L) = true) : x = '`' := by
  simp [fence3, List.isPrefixOf] at h
  exact h.1.symm

theorem fence3_prefix_third {x : Char} {L : List Char}
    (h : fence3.isPrefixOf ('`' :: '`' :: x :: L) = true) : x = '`' := by
  simp [fence3, List.isPrefixOf] at h
  exact h.symm

/-- Appending the closing fence `"```"` never changes what the short
replacement produces: any new match it enables consumes exactly the
appended backticks it contributes. -/
theorem stripTicks3_append_fence_aux :
    ∀ (n : Nat) (Y : List Char), Y.length ≤ n →
      stripTicks3 (Y ++ fence3) = stripTicks3 Y := by
  intro n
  induction n with
  | zero =>
    intro Y hY
    cases Y with
    | nil => rfl
    | cons c Y1 => simp at hY
  | succ n ih =>
    intro Y hY
    cases Y with
    | nil => rfl
    | cons c Y1 =>
      by_cases hc : c = '`'
      · subst hc
        cases Y1 with
        | nil => rfl
        | cons d Y2 =>
          by_cases hd : d = '`'
          · subst hd
            cases Y2 with
            | nil => rfl
            | cons e Y3 =>
              by_cases he : e = '`'
              · subst he
                show stripTicks3 (fence3 ++ (Y3 ++ fence3)) = stripTicks3 (fence3 ++ Y3)
                rw [stripTicks3_after_fence, stripTicks3_after_fence]
                apply ih
                simp at hY
                omega
              · have hY3 : Y3.length ≤ n := by
                  simp at hY
                  omega
                have q1 : ¬ fence3.isPrefixOf ('`' :: '`' :: e :: (Y3 ++ fence3)) = true :=
                  fun hp => he (fence3_prefix_third hp)
                have q2 : ¬ fence3.isPrefixOf ('`' :: e :: (Y3 ++ fence3)) = true :=
                  fun hp => he (fence3_prefix_second hp)
                have q3 : ¬ fence3.isPrefixOf (e :: (Y3 ++ fence3)) = true :=
                  fun hp => he (fence3_prefix_head hp)
                have q4 : ¬ fence3.isPrefixOf ('`' :: '`' :: e :: Y3) = true :=
                  fun hp => he (fence3_prefix_third hp)
                have q5 : ¬ fence3.isPrefixOf ('`' :: e :: Y3) = true :=
                  fun hp => he (fence3_prefix_second hp)
                have q6 : ¬ fence3.isPrefixOf (e :: Y3) = true :=
                  fun hp => he (fence3_prefix_head hp)
                show stripTicks3 ('`' :: '`' :: e :: (Y3 ++ fence3)) =
                  stripTicks3 ('`' :: '`' :: e :: Y3)
                rw [stripTicks3_cons_skip _ _ q1, stripTicks3_cons_skip _ _ q2,
                    stripTicks3_cons_skip _ _ q3, stripTicks3_cons_skip _ _ q4,
                    stripTicks3_cons_skip _ _ q5, stripTicks3_cons_skip _ _ q6,
                    ih Y3 hY3]
          · have hY2 : Y2.length ≤ n := by
              simp at hY
              omega
            have q1 : ¬ fence3.isPrefixOf ('`' :: d :: (Y2 ++ fence3)) = true :=
              fun hp => hd (fence3_prefix_second hp)
            have q2 : ¬ fence3.isPrefixOf (d :: (Y2 ++ fence3)) = true :=
              fun hp => hd (fence3_prefix_head hp)
            have q3 : ¬ fence3.isPrefixOf ('`' :: d :: Y2) = true :=
              fun hp => hd (fence3_prefix_second hp)
            have q4 : ¬ fence3.isPrefixOf (d :: Y2) = true :=
              fun hp => hd (fence3_prefix_head hp)
            show stripTicks3 ('`' :: d :: (Y2 ++ fence3)) = stripTicks3 ('`' :: d :: Y2)
            rw [stripTicks3_cons_skip _ _ q1, stripTicks3_cons_skip _ _ q2,
                stripTicks3_cons_skip _ _ q3, stripTicks3_cons_skip _ _ q4,
                ih Y2 hY2]
      · have hY1 : Y1.length ≤ n := by
          simp at hY
          omega
        have q1 : ¬ fence3.isPrefixOf (c :: (Y1 ++ fence3)) = true :=
          fun hp => hc (fence3_prefix_head hp)
        have q2 : ¬ fence3.isPrefixOf (c :: Y1) = true :=
          fun hp => hc (fence3_prefix_head hp)
        show stripTicks3 (c :: (Y1 ++ fence3)) = stripTicks3 (c :: Y1)
        rw [stripTicks3_cons_skip _ _ q1, stripTicks3_cons_skip _ _ q2,
            ih Y1 hY1]

theorem stripTicks3_append_fence (Y : List Char) :
    stripTicks3 (Y ++ fence3) = stripTicks3 Y :=
  stripTicks3_append_fence_aux Y.length Y le_rfl

/-- The long pattern `"```json"` cannot straddle the boundary with an
appended `"```"`: if it occurs at the head of `L ++ "```"` it already
occurs at the head of `L` (its tail `json` cannot be supplied by
backticks). -/
theorem fence7_prefix_of_append_fence3 {L : List Char}
    (h : fence7.isPrefixOf (L ++ fence3) = true) : fence7.isPrefixOf L = true := by
  rw [List.isPrefixOf_iff_prefix] at h ⊢
  by_cases hlen : 7 ≤ L.length
  · exact List.prefix_of_prefix_length_le h (List.prefix_append L fence3)
      (by simp [fence7]; omega)
  · have hlen2 : 7 ≤ L.length + 3 := by
      have hle := h.length_le
      simp [fence7, fence3] at hle
      omega
    have hL : L <+: fence7 :=
      List.prefix_of_prefix_length_le (List.prefix_append L fence3) h
        (by simp [fence7]; omega)
    have hLt : L = fence7.take L.length := List.prefix_iff_eq_take.mp hL
    have hcases : L.length = 4 ∨ L.length = 5 ∨ L.length = 6 := by omega
    rw [hLt] at h
    rcases hcases with h4 | h5 | h6
    · rw [h4] at h
      exact absurd h (by decide)
    · rw [h5] at h
      exact absurd h (by decide)
    · rw [h6] at h
      exact absurd h (by decide)

/-- Appending the closing fence to the input of the long replacement
appends it, unchanged, to the output. -/
theorem stripFence7_append_fence_aux :
    ∀ (n : Nat) (X : List Char), X.length ≤ n →
      stripFence7 (X ++ fence3) = stripFence7 X ++ fence3 := by
  intro n
  induction n with
  | zero =>
    intro X hX
    cases X with
    | nil => rfl
    | cons c X1 => simp at hX
  | succ n ih =>
    intro X hX
    by_cases hpre : fence7.isPrefixOf X = true
    · obtain ⟨t, ht⟩ := List.isPrefixOf_iff_prefix.mp hpre
      have hlt : t.length ≤ n := by
        have hlen := congrArg List.length ht
        simp [fence7] at hlen
        omega
      rw [← ht, List.append_assoc, stripFence7_after_fence, stripFence7_after_fence]
      exact ih t hlt
    · cases X with
      | nil => rfl
      | cons c X1 =>
        have hX1 : X1.length ≤ n := by
          simp at hX
          omega
        have hstr : ¬ fence7.isPrefixOf (c :: (X1 ++ fence3)) = true := by
          intro hp
          exact hpre (fence7_prefix_of_append_fence3 (L := c :: X1) (by rw [List.cons_append]; exact hp))
        show stripFence7 (c :: (X1 ++ fence3)) = stripFence7 (c :: X1) ++ fence3
        rw [stripFence7_cons_skip _ _ hstr, stripFence7_cons_skip _ _ hpre,
            ih X1 hX1, List.cons_append]

theorem stripFence7_append_fence (X : List Char) :
    stripFence7 (X ++ fence3) = stripFence7 X ++ fence3 :=
  stripFence7_append_fence_aux X.length X le_rfl

/-- Wrapping a text in the markdown JSON fence leaves the cleaned text
unchanged: the two replacements delete the wrapper (and act identically on
the inside), so the subsequent strip sees the same characters. -/
theorem clean_text_rewrap (s : List Char) :
    clean_text (fence7 ++ s ++ fence3) = clean_text s := by
  unfold clean_text
  rw [List.append_assoc, stripFence7_after_fence, stripFence7_append_fence,
      stripTicks3_append_fence]

/-- C5. `parse_stays_response` is invariant under re-wrapping: for every
string `X`, parsing `X` and parsing `X` wrapped in a markdown JSON fence
(the literal opener prepended and closer appended) yield identical
outcomes — the same value and the same error signal. -/
theorem parse_stays_response_fence_rewrap_invariant (X : String) :
    parse_stays_response ("```json" ++ X ++ "```") = parse_stays_response X := by
  unfold parse_stays_response
  have hdata : ("```json" ++ X ++ "```").data = fence7 ++ X.data ++ fence3 := by
    simp [String.data_append]
    rfl
  rw [hdata, clean_text_rewrap]

/-! ## Global (not merely leading/trailing) nature of the replacements -/
theorem fence7_prefix_second {x : Char} {L : List Char}
    (h : fence7.isPrefixOf ('`' :: x :: L) = true) : x = '`' := by
  simp [fence7, List.isPrefixOf] at h
  exact h.1.symm

theorem fence7_prefix_third {x : Char} {L : List Char}
    (h : fence7.isPrefixOf ('`' :: '`' :: x :: L) = true) : x = '`' := by
  simp [fence7, List.isPrefixOf] at h
  exact h.1.symm

theorem stripFence7_no_tick (s : List Char) (h : ∀ c ∈ s, c ≠ '`') :
    stripFence7 s = s := by
  induction s with
  | nil => rfl
  | cons c rest ih =>
    have hc : c ≠ '`' := h c (List.mem_cons_self c rest)
    rw [stripFence7_cons_skip _ _ (fun hp => hc (fence7_prefix_head hp)),
        ih (fun x hx => h x (List.mem_cons_of_mem c hx))]

theorem stripTicks3_no_tick (s : List Char) (h : ∀ c ∈ s, c ≠ '`') :
    stripTicks3 s = s := by
  induction s with
  | nil => rfl
  | cons c rest ih =>
    have hc : c ≠ '`' := h c (List.mem_cons_self c rest)
    rw [stripTicks3_cons_skip _ _ (fun hp => hc (fence3_prefix_head hp)),
        ih (fun x hx => h x (List.mem_cons_of_mem c hx))]

theorem stripFence7_append_no_tick (a r : List Char) (ha : ∀ c ∈ a, c ≠ '`') :
    stripFence7 (a ++ r) = a ++ stripFence7 r := by
  induction a with
  | nil => rfl
  | cons c a1 ih =>
    have hc : c ≠ '`' := ha c (List.mem_cons_self c a1)
    rw [List.cons_append,
        stripFence7_cons_skip _ _ (fun hp => hc (fence7_prefix_head hp)),
        ih (fun x hx => ha x (List.mem_cons_of_mem c hx)), List.cons_append]

theorem stripTicks3_append_no_tick (a r : List Char) (ha : ∀ c ∈ a, c ≠ '`') :
    stripTicks3 (a ++ r) = a ++ stripTicks3 r := by
  induction a with
  | nil => rfl
  | cons c a1 ih =>
    have hc : c ≠ '`' := ha c (List.mem_cons_self c a1)
    rw [List.cons_append,
        stripTicks3_cons_skip _ _ (fun hp => hc (fence3_prefix_head hp)),
        ih (fun x hx => ha x (List.mem_cons_of_mem c hx)), List.cons_append]

/-- On a lone `"```"` followed by backtick-free text not starting with
`json`, the long replacement finds no match at all. -/
theorem stripFence7_fence3_append (b : List Char) (hb : ∀ c ∈ b, c ≠ '`')
    (hj : jsonTag.isPrefixOf b = false) :
    stripFence7 (fence3 ++ b) = fence3 ++ b := by
  have p1 : ¬ fence7.isPrefixOf ('`' :: '`' :: '`' :: b) = true := by
    intro hp
    rw [show ('`' :: '`' :: '`' :: b) = fence3 ++ b from rfl, fence7_eq_fence3_append,
        List.isPrefixOf_iff_prefix, List.prefix_append_right_inj,
        ← List.isPrefixOf_iff_prefix] at hp
    simp [hj] at hp
  have p2 : ¬ fence7.isPrefixOf ('`' :: '`' :: b) = true := by
    cases b with
    | nil => simp [fence7, List.isPrefixOf]
    | cons d b2 =>
      exact fun hp => (hb d (List.mem_cons_self d b2)) (fence7_prefix_third hp)
  have p3 : ¬ fence7.isPrefixOf ('`' :: b) = true := by
    cases b with
    | nil => simp [fence7, List.isPrefixOf]
    | cons d b2 =>
      exact fun hp => (hb d (List.mem_cons_self d b2)) (fence7_prefix_second hp)
  show stripFence7 ('`' :: '`' :: '`' :: b) = '`' :: '`' :: '`' :: b
  rw [stripFence7_cons_skip _ _ p1, stripFence7_cons_skip _ _ p2,
      stripFence7_cons_skip _ _ p3, stripFence7_no_tick b hb]

/-- C4 (counterexample). An occurrence of the fence marker strictly inside
the JSON payload (here inside a JSON string value) does not survive into
the decoded result: `parse_stays_response "[\"a```b\"]"` decodes to
`["ab"]` — the interior backticks were deleted by the global replacement —
whereas the claim predicts the occurrence is left unchanged and the result
is `["a```b"]`. -/
theorem parse_stays_response_strips_interior_fence :
    parse_stays_response "[\"a```b\"]" = ⟨JValue.arr [JValue.str "ab"], false⟩ ∧
    containsSub fence3 "ab".data = false ∧
    containsSub fence3 "a```b".data = true :=
  ⟨rfl, rfl, rfl⟩

/-- C4 (amended). The cleaning step removes *every* occurrence of the
fence markers, wherever they occur (CPython `str.replace` is a global
replacement), then trims whitespace: a backtick-free input is decoded
as-is after trimming (absence of a fence is tolerated), and an interior
`"```"` standing between backtick-free halves (the right half not starting
with `json`) is deleted, the halves joined. -/
theorem clean_text_global_replacement :
    (∀ s : List Char, (∀ c ∈ s, c ≠ '`') → clean_text s = pyStrip s) ∧
    (∀ a b : List Char, (∀ c ∈ a, c ≠ '`') → (∀ c ∈ b, c ≠ '`') →
      jsonTag.isPrefixOf b = false →
      clean_text (a ++ fence3 ++ b) = pyStrip (a ++ b)) := by
  constructor
  · intro s h
    unfold clean_text
    rw [stripFence7_no_tick s h, stripTicks3_no_tick s h]
  · intro a b ha hb hj
    unfold clean_text
    rw [List.append_assoc, stripFence7_append_no_tick a _ ha,
        stripFence7_fence3_append b hb hj, stripTicks3_append_no_tick a _ ha,
        stripTicks3_after_fence, stripTicks3_no_tick b hb]

/-- Witness for C4 (amended): the backtick-free input `"[1]"` is cleaned
to its trim, and `"[\"a" ++ "```" ++ "b\"]"` is cleaned to the trim of
`"[\"ab\"]"` — the interior fence deleted. -/
theorem clean_text_global_replacement_witness :
    clean_text "[1]".data = pyStrip "[1]".data ∧
    clean_text ("[\"a".data ++ fence3 ++ "b\"]".data) =
      pyStrip ("[\"a".data ++ "b\"]".data) :=
  ⟨clean_text_global_replacement.1 "[1]".data (by decide),
   clean_text_global_replacement.2 "[\"a".data "b\"]".data
     (by decide) (by decide) (by decide)⟩

theorem containsSub_cons (pat : List Char) (c : Char) (rest : List Char) :
    containsSub pat (c :: rest) = (pat.isPrefixOf (c :: rest) || containsSub pat rest) := rfl

theorem containsSub_of_isPrefixOf (pat s : List Char) (h : pat.isPrefixOf s = true) :
    containsSub pat s = true := by
  cases s with
  | nil => exact h
  | cons c rest => rw [containsSub_cons, h, Bool.true_or]

theorem containsSub_here (pat y : List Char) : containsSub pat (pat ++ y) = true :=
  containsSub_of_isPrefixOf pat (pat ++ y)
    (by rw [List.isPrefixOf_iff_prefix]; exact List.prefix_append pat y)

theorem containsSub_append_right (pat r : List Char) (h : containsSub pat r = true)
    (x : List Char) : containsSub pat (x ++ r) = true := by
  induction x with
  | nil => exact h
  | cons c x1 ih => rw [List.cons_append, containsSub_cons, ih, Bool.or_true]

/-- C1 (counterexample). At the valid input `("Paris", 5, 3)` the built
prompt DOES contain the markdown code-fence markers: the instruction text
includes the literal fenced-block markers inside the sentence telling the
model not to use markdown formatting (app.py line 68), contradicting the
claim that the output never contains a code-fence marker. -/
theorem generate_stays_prompt_contains_fence_marker :
    ("Paris" ≠ "" ∧ 0 < 5 ∧ 0 < 3) ∧
    containsSub fence7 (generate_stays_prompt "Paris" 5 3).data = true ∧
    containsSub fence3 (generate_stays_prompt "Paris" 5 3).data = true :=
  ⟨⟨by decide, by decide, by decide⟩, by decide, by decide⟩

/-- C1 (amended). For every valid triple (non-empty location, positive
radius, positive max_results) the prompt contains the location string
verbatim, the decimal radius and the decimal max_results — but, contrary
to the claim, it also always contains the markdown code-fence markers, as
part of the instruction telling the model *not* to emit them. -/
theorem generate_stays_prompt_contents (location : String) (radius max_results : Nat)
    (_hl : location ≠ "") (_hr : 0 < radius) (_hm : 0 < max_results) :
    containsSub location.data (generate_stays_prompt location radius max_results).data = true ∧
    containsSub (toString radius).data
      (generate_stays_prompt location radius max_results).data = true ∧
    containsSub (toString max_results).data
      (generate_stays_prompt location radius max_results).data = true ∧
    containsSub fence7 (generate_stays_prompt location radius max_results).data = true := by
  have hd : (generate_stays_prompt location radius max_results).data
      = promptPart1.data ++ ((toString max_results).data ++ (promptPart2.data ++
        (location.data ++ (promptPart3.data ++ ((toString radius).data ++
        promptPart4.data))))) := by
    simp [generate_stays_prompt, String.data_append]
  rw [hd]
  refine ⟨?_, ?_, ?_, ?_⟩
  · exact containsSub_append_right _ _
      (containsSub_append_right _ _
        (containsSub_append_right _ _ (containsSub_here _ _) _) _) _
  · exact containsSub_append_right _ _
      (containsSub_append_right _ _
        (containsSub_append_right _ _
          (containsSub_append_right _ _
            (containsSub_append_right _ _ (containsSub_here _ _) _) _) _) _) _
  · exact containsSub_append_right _ _ (containsSub_here _ _) _
  · exact containsSub_append_right _ _
      (containsSub_append_right _ _
        (containsSub_append_right _ _
          (containsSub_append_right _ _
            (containsSub_append_right _ _
              (containsSub_append_right _ _ (by decide) _) _) _) _) _) _

/-- Witness for C1 (amended) at the valid input `("Kyoto", 7, 4)`. -/
theorem generate_stays_prompt_contents_witness :
    containsSub "Kyoto".data (generate_stays_prompt "Kyoto" 7 4).data = true ∧
    containsSub (toString (7 : Nat)).data (generate_stays_prompt "Kyoto" 7 4).data = true ∧
    containsSub (toString (4 : Nat)).data (generate_stays_prompt "Kyoto" 7 4).data = true ∧
    containsSub fence7 (generate_stays_prompt "Kyoto" 7 4).data = true :=
  generate_stays_prompt_contents "Kyoto" 7 4 (by decide) (by decide) (by decide)

example : main_search none true (Except.ok "[]") "Paris" 5 3 = [.shownKeyMissingError] := rfl

example : main_search (some "k") true (Except.error "boom") "Paris" 5 3 =
    [.calledBackend, .shownApiError] := rfl

example : main_search (some "k") true (Except.ok "not json") "Paris" 5 3 =
    [.calledBackend, .shownParseError, .shownNoDataWarning] := rfl

example : main_search (some "k") true (Except.ok "[\x7b\"rating\": \"x\"\x7d]") "Paris" 5 3 =
    [.calledBackend, .raisedUncaught "int() on non-numeric rating"] := rfl

example : render_stay (JValue.obj [("rating", JValue.num 4), ("price_range", JValue.arr [])]) =
    .error "StreamlitAPIException: metric value" := rfl

example : render_stay (JValue.obj [("rating", JValue.num 10000000000000000000)]) =
    .error "OverflowError: repeat count too large" := rfl

example : main_search (some "k") true (Except.ok "[\x7b\"price_range\": []\x7d]") "Paris" 5 3 =
    [.calledBackend, .raisedUncaught "StreamlitAPIException: metric value"] := rfl

/-- C7. For every search initiated while the API credential is missing
(the environment value absent or empty, hence falsy), the backend wrapper
is never invoked: `main` returns directly on the key check of lines
154-156, so the only observable step is the key-missing error message and
no `calledBackend` step occurs. -/
theorem missing_credential_skips_backend (apiKey : Option String)
    (configureOk : Bool) (backend : Except String String) (location : String)
    (radius max_results : Nat) (h : pyTruthyKey apiKey = false) :
    main_search apiKey configureOk backend location radius max_results
      = [StepEvent.shownKeyMissingError] ∧
    StepEvent.calledBackend ∉
      main_search apiKey configureOk backend location radius max_results := by
  have h1 : main_search apiKey configureOk backend location radius max_results
      = [StepEvent.shownKeyMissingError] := by
    unfold main_search
    rw [h]
    rfl
  refine ⟨h1, ?_⟩
  rw [h1]
  simp

/-- Witness for C7 at the missing credential `none`. -/
theorem missing_credential_skips_backend_witness :
    main_search none true (Except.ok "[]") "Paris" 5 3
      = [StepEvent.shownKeyMissingError] ∧
    StepEvent.calledBackend ∉ main_search none true (Except.ok "[]") "Paris" 5 3 :=
  missing_credential_skips_backend none true (Except.ok "[]") "Paris" 5 3 rfl

